import Mathlib

/-!
Verification development for the `r2-browser` worker entry point
(`src/worker/src/lib.rs`): a shallow embedding of the request logger,
the two registered routes and the `main` fetch handler, together with
theorems about their behaviour.
-/

namespace R2Worker

/-- HTTP methods, as matched by the routing library.  Only `GET` routes are
registered by this worker; the other constructors exist so that unmatched
methods can be expressed. -/
inductive Method
  | GET | POST | PUT | DELETE | HEAD | OPTIONS
  deriving DecidableEq

/-- `worker::Cf`: the geolocation metadata the edge runtime may attach to a
request.  `coordinates` models `Cf::coordinates : Option<(f32, f32)>`
(the `f32` pair is modelled with Lean `Float`s; the worker never computes
with the numbers, it only default-fills and prints them) and `region`
models `Cf::region : Option<String>`. -/
structure Cf where
  coordinates : Option (Float × Float)
  region : Option String

/-- `worker::Request`, restricted to the parts this worker reads: the HTTP
method and path (used by the router) and the optional `cf` geolocation
record (used by `log_request`). -/
structure Request where
  method : Method
  path : String
  cf : Option Cf

/-- `Default::default()` for `(f32, f32)`: the zero pair. -/
def defaultCoordinates : Float × Float := (0.0, 0.0)

/-- The ambient clock, supplied by the runtime at the moment a request is
handled: `millis` is the value of `Date::now().as_millis()` and `rfc3339`
is the value of `chrono::Utc::now().to_rfc3339()`, i.e. the RFC 3339
rendering of the same current UTC instant (chrono is an external crate and
is what guarantees the RFC 3339 format). -/
structure Clock where
  millis : Nat
  rfc3339 : String

/-- One emitted log line, modelled as the tuple of the four values that
`console_log!` interpolates: the millisecond timestamp, the request path,
the coordinate pair and the region label. -/
structure LogLine where
  millis : Nat
  path : String
  coordinates : Float × Float
  region : String

/-- `log_request` from `src/worker/src/lib.rs`: reads the optional `cf`
record, default-fills coordinates (two nested `unwrap_or_default`) and
region (`unwrap_or_else(|| "unknown region".into())`), and emits a single
log line.  The Rust function returns `()`; its one observable effect, the
emitted line, is the value returned here. -/
def log_request (clock : Clock) (req : Request) : LogLine :=
  let coordinates :=
    (req.cf.map (fun cf => cf.coordinates.getD defaultCoordinates)).getD
      defaultCoordinates
  let region := (req.cf.bind Cf.region).getD "unknown region"
  { millis := clock.millis
    path := req.path
    coordinates := coordinates
    region := region }

/-- A response body: either plain text (`Response::ok`) or a JSON object
(`Response::from_json`).  The only JSON object this worker builds has
string values, so an object is modelled as its ordered field list. -/
inductive Body
  | text (s : String)
  | json (fields : List (String × String))
  deriving DecidableEq

/-- `worker::Response`, restricted to what the worker constructs: a status
code and a body. -/
structure Response where
  status : Nat
  body : Body
  deriving DecidableEq

/-- Runtime configuration (`worker::Env`): named bindings supplied by the
deployment environment.  The worker never reads it; it is threaded through
only so that independence from runtime configuration can be stated. -/
structure Env where
  vars : List (String × String)

/-- `worker::RouteContext`, restricted to what it carries for these routes:
the environment.  Both handlers ignore it. -/
structure RouteContext where
  env : Env

/-- `worker::Context`, the third argument of the fetch handler; `main`
ignores it (`_ctx`). -/
structure Context where
  dummy : Unit

/-- Build-time package metadata: `cargoPkgVersion` is the value of
`env!("CARGO_PKG_VERSION")`, baked in at compile time, distinct from the
runtime `Env`. -/
structure BuildInfo where
  cargoPkgVersion : String

/-- Modelled from the spec: `worker::Response::ok` (external crate) builds
an HTTP 200 response with the given plain-text body; it is an unconditional
success. -/
def Response.ok (s : String) : Except String Response :=
  .ok { status := 200, body := .text s }

/-- Modelled from the spec: `worker::Response::from_json` (external crate)
serialises the value and builds an HTTP 200 response with the JSON body;
serialisation of a string-valued object cannot fail, so this is a
success. -/
def Response.from_json (fields : List (String × String)) :
    Except String Response :=
  .ok { status := 200, body := .json fields }

/-- The handler registered for `GET "/"`:
`|_, _| Response::ok("R2 File Explorer API")`.  Both arguments are
ignored. -/
def rootHandler : Request → RouteContext → Except String Response :=
  fun _ _ => Response.ok "R2 File Explorer API"

/-- The handler registered for `GET "/health"`: builds the JSON object
`{"status": "healthy", "timestamp": chrono::Utc::now().to_rfc3339(),
"version": env!("CARGO_PKG_VERSION")}` and returns it via
`Response::from_json`.  Both request and context arguments are ignored;
only the clock and the build metadata enter the body. -/
def healthHandler (build : BuildInfo) (clock : Clock) :
    Request → RouteContext → Except String Response :=
  fun _ _ =>
    Response.from_json
      [("status", "healthy"),
       ("timestamp", clock.rfc3339),
       ("version", build.cargoPkgVersion)]

/-- One entry of the router's table: a method, a path pattern and a
handler. -/
structure Route where
  method : Method
  path : String
  handler : Request → RouteContext → Except String Response

/-- Modelled from the spec: the external `worker::Router` keeps a fixed,
ordered table of `(method, path-pattern) → handler` entries. -/
structure Router where
  routes : List Route

/-- `Router::new()`: the empty table. -/
def Router.new : Router := ⟨[]⟩

/-- `Router::get(path, handler)`: appends a `GET` entry to the table. -/
def Router.get (r : Router) (p : String)
    (h : Request → RouteContext → Except String Response) : Router :=
  ⟨r.routes ++ [{ method := .GET, path := p, handler := h }]⟩

/-- Whether a table entry matches a request.  The two patterns this worker
registers (`"/"` and `"/health"`) contain no `:name` or `*` placeholders,
so matching is method-and-path equality. -/
def Route.matchesReq (rt : Route) (req : Request) : Bool :=
  rt.method == req.method && rt.path == req.path

/-- Modelled from the spec: `Router::run(req, env)` (external crate)
matches the request against the table in registration order and invokes
the first matching handler; a request matching no entry is handled by the
router's own default behaviour, which this worker does not override and
which is modelled by the `dflt` parameter. -/
def Router.run (r : Router) (dflt : Request → Env → Except String Response)
    (req : Request) (env : Env) : Except String Response :=
  match r.routes.find? (fun rt => rt.matchesReq req) with
  | some rt => rt.handler req { env := env }
  | none => dflt req env

/-- The router built in `main`:
`Router::new().get("/", ...).get("/health", ...)`. -/
def appRouter (build : BuildInfo) (clock : Clock) : Router :=
  (Router.new.get "/" rootHandler).get "/health" (healthHandler build clock)

/-- The observable steps `main` performs, in order: the log emission, the
installation of the panic hook (`utils::set_panic_hook`, modelled from the
spec: its body is not under `src/`; per the spec it installs a process-wide
hook forwarding panics to the console, with no effect on successful paths),
and the dispatch of the request through the router. -/
inductive Event
  | logged (line : LogLine)
  | panicHookInstalled
  | dispatched (method : Method) (path : String)

/-- Bool test for `Event.logged`. -/
def Event.isLogged : Event → Bool
  | .logged _ => true
  | _ => false

/-- `main` from `src/worker/src/lib.rs`, the `#[event(fetch)]` entry point:
logs the request, installs the panic hook, builds the two-route table and
runs it.  The returned pair is the ordered trace of observable steps and
the dispatched `Result<Response>`. -/
def main (build : BuildInfo) (clock : Clock)
    (dflt : Request → Env → Except String Response)
    (req : Request) (env : Env) (_ctx : Context) :
    List Event × Except String Response :=
  let line := log_request clock req
  let resp := (appRouter build clock).run dflt req env
  ([.logged line, .panicHookInstalled, .dispatched req.method req.path],
   resp)

/-! ### Helper lemmas shared by the claim theorems -/

/-- The response part of `main` is exactly the router's dispatch result. -/
theorem main_resp (build : BuildInfo) (clock : Clock)
    (dflt : Request → Env → Except String Response)
    (req : Request) (env : Env) (ctx : Context) :
    (main build clock dflt req env ctx).2 =
      (appRouter build clock).run dflt req env := rfl

/-- Dispatching a `GET "/"` request hits the first table entry. -/
theorem run_root (build : BuildInfo) (clock : Clock)
    (dflt : Request → Env → Except String Response)
    (req : Request) (env : Env)
    (hm : req.method = .GET) (hp : req.path = "/") :
    (appRouter build clock).run dflt req env =
      .ok { status := 200, body := .text "R2 File Explorer API" } := by
  simp [appRouter, Router.run, Router.get, Router.new, Route.matchesReq,
    List.find?, hm, hp, rootHandler, Response.ok]

/-- Dispatching a `GET "/health"` request hits the second table entry. -/
theorem run_health (build : BuildInfo) (clock : Clock)
    (dflt : Request → Env → Except String Response)
    (req : Request) (env : Env)
    (hm : req.method = .GET) (hp : req.path = "/health") :
    (appRouter build clock).run dflt req env =
      .ok { status := 200,
            body := .json
              [("status", "healthy"),
               ("timestamp", clock.rfc3339),
               ("version", build.cargoPkgVersion)] } := by
  simp [appRouter, Router.run, Router.get, Router.new, Route.matchesReq,
    List.find?, hm, hp, healthHandler, Response.from_json]

/-- A request matching neither table entry falls through to the router's
default behaviour. -/
theorem run_unmatched (build : BuildInfo) (clock : Clock)
    (dflt : Request → Env → Except String Response)
    (req : Request) (env : Env)
    (h : ¬ (req.method = .GET ∧ (req.path = "/" ∨ req.path = "/health"))) :
    (appRouter build clock).run dflt req env = dflt req env := by
  have h1 : (Route.matchesReq
      { method := .GET, path := "/", handler := rootHandler } req) = false := by
    simp only [Route.matchesReq, Bool.and_eq_false_iff, beq_eq_false_iff_ne,
      ne_eq]
    by_cases hm : req.method = Method.GET
    · right
      intro hp
      exact h ⟨hm, Or.inl hp.symm⟩
    · left
      intro hm2
      exact hm hm2.symm
  have h2 : (Route.matchesReq
      { method := .GET, path := "/health",
        handler := healthHandler build clock } req) = false := by
    simp only [Route.matchesReq, Bool.and_eq_false_iff, beq_eq_false_iff_ne,
      ne_eq]
    by_cases hm : req.method = Method.GET
    · right
      intro hp
      exact h ⟨hm, Or.inr hp.symm⟩
    · left
      intro hm2
      exact hm hm2.symm
  simp [appRouter, Router.run, Router.get, Router.new, List.find?, h1, h2]

/-! ### The claims -/

/-- C1: every GET request to path "/" is dispatched to a response with
HTTP status 200 and body exactly the plain text "R2 File Explorer API". -/
theorem c1_root_route (build : BuildInfo) (clock : Clock)
    (dflt : Request → Env → Except String Response)
    (req : Request) (env : Env) (ctx : Context)
    (hm : req.method = .GET) (hp : req.path = "/") :
    (main build clock dflt req env ctx).2 =
      .ok { status := 200, body := .text "R2 File Explorer API" } := by
  rw [main_resp]
  exact run_root build clock dflt req env hm hp

/-- Witness for C1, at a concrete GET "/" request. -/
theorem c1_root_route_witness :
    (main { cargoPkgVersion := "0.1.0" }
      { millis := 0, rfc3339 := "1970-01-01T00:00:00+00:00" }
      (fun _ _ => .error "unmatched")
      { method := .GET, path := "/", cf := none }
      { vars := [] } { dummy := () }).2 =
      .ok { status := 200, body := .text "R2 File Explorer API" } :=
  c1_root_route _ _ _ _ _ _ rfl rfl

/-- C2: every GET request to path "/health" is dispatched to a response
with HTTP status 200 whose JSON body has exactly the fields `status`,
`timestamp` and `version`, where `status` is "healthy", `timestamp` is the
RFC 3339 rendering of the current UTC time (the clock's `rfc3339` value)
and `version` is the build-time package version — the runtime environment
`env` does not enter the body. -/
theorem c2_health_route (build : BuildInfo) (clock : Clock)
    (dflt : Request → Env → Except String Response)
    (req : Request) (env : Env) (ctx : Context)
    (hm : req.method = .GET) (hp : req.path = "/health") :
    (main build clock dflt req env ctx).2 =
      .ok { status := 200,
            body := .json
              [("status", "healthy"),
               ("timestamp", clock.rfc3339),
               ("version", build.cargoPkgVersion)] } := by
  rw [main_resp]
  exact run_health build clock dflt req env hm hp

/-- Witness for C2, at a concrete GET "/health" request. -/
theorem c2_health_route_witness :
    (main { cargoPkgVersion := "0.1.0" }
      { millis := 1700000000000, rfc3339 := "2023-11-14T22:13:20+00:00" }
      (fun _ _ => .error "unmatched")
      { method := .GET, path := "/health", cf := none }
      { vars := [("API_KEY", "runtime-secret")] } { dummy := () }).2 =
      .ok { status := 200,
            body := .json
              [("status", "healthy"),
               ("timestamp", "2023-11-14T22:13:20+00:00"),
               ("version", "0.1.0")] } :=
  c2_health_route _ _ _ _ _ _ rfl rfl

/-- C3: for every request the logger totally computes a log line — no
error is raised for any presence shape of the geolocation metadata — and
when coordinates are absent (no `cf` record, or one without coordinates)
it substitutes the default zero pair, and when the region is absent it
substitutes the literal "unknown region". -/
theorem c3_absent_geo_defaults (clock : Clock) (req : Request)
    (hc : req.cf = none ∨ ∃ c, req.cf = some c ∧ c.coordinates = none)
    (hr : req.cf = none ∨ ∃ c, req.cf = some c ∧ c.region = none) :
    (log_request clock req).coordinates = defaultCoordinates ∧
      (log_request clock req).region = "unknown region" := by
  constructor
  · rcases hc with h | ⟨c, hc1, hc2⟩
    · simp [log_request, h]
    · simp [log_request, hc1, hc2]
  · rcases hr with h | ⟨c, hr1, hr2⟩
    · simp [log_request, h]
    · simp [log_request, hr1, hr2]

/-- Witness for C3, at a request with no geolocation record at all. -/
theorem c3_absent_geo_defaults_witness :
    (log_request { millis := 5, rfc3339 := "1970-01-01T00:00:00+00:00" }
        { method := .GET, path := "/", cf := none }).coordinates =
        defaultCoordinates ∧
      (log_request { millis := 5, rfc3339 := "1970-01-01T00:00:00+00:00" }
        { method := .GET, path := "/", cf := none }).region =
        "unknown region" :=
  c3_absent_geo_defaults _ _ (Or.inl rfl) (Or.inl rfl)

/-- C4: for every request, `main`'s trace contains exactly one log event;
its line carries the current millisecond timestamp, the request's path,
the coordinate pair (default when no geolocation is supplied) and the
region label ("unknown region" when absent).  The logger contributes
nothing else to the trace and nothing to the response. -/
theorem c4_one_log_line (build : BuildInfo) (clock : Clock)
    (dflt : Request → Env → Except String Response)
    (req : Request) (env : Env) (ctx : Context) :
    (main build clock dflt req env ctx).1.filter Event.isLogged =
        [Event.logged (log_request clock req)] ∧
      (log_request clock req).millis = clock.millis ∧
      (log_request clock req).path = req.path ∧
      (req.cf = none →
        (log_request clock req).coordinates = defaultCoordinates ∧
          (log_request clock req).region = "unknown region") := by
  refine ⟨?_, rfl, rfl, fun h => ?_⟩
  · simp [main, Event.isLogged, List.filter]
  · simp [log_request, h]

/-- Witness for C4, at a concrete request without geolocation. -/
theorem c4_one_log_line_witness :
    (main { cargoPkgVersion := "0.1.0" }
        { millis := 42, rfc3339 := "1970-01-01T00:00:00+00:00" }
        (fun _ _ => .error "unmatched")
        { method := .GET, path := "/", cf := none }
        { vars := [] } { dummy := () }).1.filter Event.isLogged =
        [Event.logged
          (log_request { millis := 42, rfc3339 := "1970-01-01T00:00:00+00:00" }
            { method := .GET, path := "/", cf := none })] ∧
      (log_request { millis := 42, rfc3339 := "1970-01-01T00:00:00+00:00" }
        { method := .GET, path := "/", cf := none }).millis = 42 ∧
      (log_request { millis := 42, rfc3339 := "1970-01-01T00:00:00+00:00" }
        { method := .GET, path := "/", cf := none }).path = "/" ∧
      (({ method := .GET, path := "/", cf := none } : Request).cf = none →
        (log_request { millis := 42, rfc3339 := "1970-01-01T00:00:00+00:00" }
          { method := .GET, path := "/", cf := none }).coordinates =
          defaultCoordinates ∧
        (log_request { millis := 42, rfc3339 := "1970-01-01T00:00:00+00:00" }
          { method := .GET, path := "/", cf := none }).region =
          "unknown region") :=
  c4_one_log_line _ _ _ _ _ _

/-- C5: the route table holds exactly two entries, in registration order
(GET, "/") then (GET, "/health"); a request whose method and path match
neither entry is handled by the external router's default behaviour,
unchanged by this code. -/
theorem c5_route_table (build : BuildInfo) (clock : Clock)
    (dflt : Request → Env → Except String Response)
    (req : Request) (env : Env)
    (h : ¬ (req.method = .GET ∧ (req.path = "/" ∨ req.path = "/health"))) :
    ((appRouter build clock).routes.map (fun rt => (rt.method, rt.path)) =
        [(Method.GET, "/"), (Method.GET, "/health")]) ∧
      (appRouter build clock).run dflt req env = dflt req env :=
  ⟨rfl, run_unmatched build clock dflt req env h⟩

/-- Witness for C5, at a concrete unmatched request (GET "/missing"). -/
theorem c5_route_table_witness :
    ((appRouter { cargoPkgVersion := "0.1.0" }
        { millis := 0, rfc3339 := "1970-01-01T00:00:00+00:00" }).routes.map
          (fun rt => (rt.method, rt.path)) =
        [(Method.GET, "/"), (Method.GET, "/health")]) ∧
      (appRouter { cargoPkgVersion := "0.1.0" }
        { millis := 0, rfc3339 := "1970-01-01T00:00:00+00:00" }).run
          (fun _ _ => .error "router default")
          { method := .GET, path := "/missing", cf := none }
          { vars := [] } =
        (fun (_ : Request) (_ : Env) =>
          (.error "router default" : Except String Response))
          { method := .GET, path := "/missing", cf := none } { vars := [] } :=
  c5_route_table _ _ _ _ _ (by simp)

/-- C6: two GET "/" requests that may differ arbitrarily in attached
geolocation metadata (indeed in any request attribute beyond method and
path) are dispatched to identical responses — the 200 "R2 File Explorer
API" response — so the logger's input never influences response content or
control flow. -/
theorem c6_geo_noninterference (build : BuildInfo) (clock : Clock)
    (dflt : Request → Env → Except String Response)
    (req req2 : Request) (env : Env) (ctx ctx2 : Context)
    (hm : req.method = .GET) (hp : req.path = "/")
    (hm2 : req2.method = .GET) (hp2 : req2.path = "/") :
    (main build clock dflt req env ctx).2 =
        (main build clock dflt req2 env ctx2).2 ∧
      (main build clock dflt req env ctx).2 =
        .ok { status := 200, body := .text "R2 File Explorer API" } := by
  have e1 : (main build clock dflt req env ctx).2 =
      .ok { status := 200, body := .text "R2 File Explorer API" } := by
    rw [main_resp]
    exact run_root build clock dflt req env hm hp
  have e2 : (main build clock dflt req2 env ctx2).2 =
      .ok { status := 200, body := .text "R2 File Explorer API" } := by
    rw [main_resp]
    exact run_root build clock dflt req2 env hm2 hp2
  exact ⟨e1.trans e2.symm, e1⟩

/-- Witness for C6: a GET "/" request with geolocation attached and one
without produce the same response. -/
theorem c6_geo_noninterference_witness :
    (main { cargoPkgVersion := "0.1.0" }
        { millis := 0, rfc3339 := "1970-01-01T00:00:00+00:00" }
        (fun _ _ => .error "unmatched")
        { method := .GET, path := "/",
          cf := some { coordinates := some (1.5, 2.5),
                       region := some "Texas" } }
        { vars := [] } { dummy := () }).2 =
      (main { cargoPkgVersion := "0.1.0" }
        { millis := 0, rfc3339 := "1970-01-01T00:00:00+00:00" }
        (fun _ _ => .error "unmatched")
        { method := .GET, path := "/", cf := none }
        { vars := [] } { dummy := () }).2 ∧
    (main { cargoPkgVersion := "0.1.0" }
        { millis := 0, rfc3339 := "1970-01-01T00:00:00+00:00" }
        (fun _ _ => .error "unmatched")
        { method := .GET, path := "/",
          cf := some { coordinates := some (1.5, 2.5),
                       region := some "Texas" } }
        { vars := [] } { dummy := () }).2 =
      .ok { status := 200, body := .text "R2 File Explorer API" } :=
  c6_geo_noninterference _ _ _ _ _ _ _ _ rfl rfl rfl rfl

/-- C7: for every request, `main` performs its observable steps in the
fixed order: log emission first, then panic-hook installation, then the
dispatch through the router. -/
theorem c7_step_order (build : BuildInfo) (clock : Clock)
    (dflt : Request → Env → Except String Response)
    (req : Request) (env : Env) (ctx : Context) :
    (main build clock dflt req env ctx).1 =
      [Event.logged (log_request clock req), Event.panicHookInstalled,
       Event.dispatched req.method req.path] := rfl

/-- C8: neither registered handler ever returns the error variant: on any
invocation, each produces a success carrying a response. -/
theorem c8_handlers_never_err (build : BuildInfo) (clock : Clock)
    (req : Request) (rctx : RouteContext) :
    (∃ resp, rootHandler req rctx = .ok resp) ∧
      (∃ resp, healthHandler build clock req rctx = .ok resp) :=
  ⟨⟨{ status := 200, body := .text "R2 File Explorer API" }, rfl⟩,
   ⟨{ status := 200,
      body := .json
        [("status", "healthy"),
         ("timestamp", clock.rfc3339),
         ("version", build.cargoPkgVersion)] }, rfl⟩⟩

/-- C9: both handler closures ignore the request and the route context:
any two invocations at the same clock reading produce identical responses;
the "/" body is the compile-time constant and the "/health" body depends
only on the clock and the build version. -/
theorem c9_handlers_ignore_args (build : BuildInfo) (clock : Clock)
    (req1 req2 : Request) (rctx1 rctx2 : RouteContext) :
    rootHandler req1 rctx1 = rootHandler req2 rctx2 ∧
      healthHandler build clock req1 rctx1 =
        healthHandler build clock req2 rctx2 ∧
      rootHandler req1 rctx1 =
        .ok { status := 200, body := .text "R2 File Explorer API" } ∧
      healthHandler build clock req1 rctx1 =
        .ok { status := 200,
              body := .json
                [("status", "healthy"),
                 ("timestamp", clock.rfc3339),
                 ("version", build.cargoPkgVersion)] } :=
  ⟨rfl, rfl, rfl, rfl⟩

/-- C10: a geolocation record whose region field is missing is logged with
"unknown region" exactly as if no record were attached; a record whose
coordinates field is missing yields the same default pair as an absent
record; and when both fields are missing the whole log line is identical
to the no-record line. -/
theorem c10_missing_field_defaults (clock : Clock) (req : Request)
    (c : Cf) (h : req.cf = some c) :
    (c.region = none →
        (log_request clock req).region =
          (log_request clock { req with cf := none }).region) ∧
      (c.coordinates = none →
        (log_request clock req).coordinates =
          (log_request clock { req with cf := none }).coordinates) ∧
      (c.region = none → c.coordinates = none →
        log_request clock req = log_request clock { req with cf := none }) := by
  refine ⟨fun hr => ?_, fun hc => ?_, fun hr hc => ?_⟩
  · simp [log_request, h, hr]
  · simp [log_request, h, hc]
  · simp [log_request, h, hr, hc]

/-- Witness for C10, at a request carrying a record with both fields
missing. -/
theorem c10_missing_field_defaults_witness :
    ((({ coordinates := none, region := none } : Cf).region = none →
        (log_request { millis := 7, rfc3339 := "1970-01-01T00:00:00+00:00" }
          { method := .GET, path := "/x",
            cf := some { coordinates := none, region := none } }).region =
          (log_request { millis := 7, rfc3339 := "1970-01-01T00:00:00+00:00" }
            { method := .GET, path := "/x", cf := none }).region) ∧
      (({ coordinates := none, region := none } : Cf).coordinates = none →
        (log_request { millis := 7, rfc3339 := "1970-01-01T00:00:00+00:00" }
          { method := .GET, path := "/x",
            cf := some { coordinates := none, region := none } }).coordinates =
          (log_request { millis := 7, rfc3339 := "1970-01-01T00:00:00+00:00" }
            { method := .GET, path := "/x", cf := none }).coordinates) ∧
      (({ coordinates := none, region := none } : Cf).region = none →
        ({ coordinates := none, region := none } : Cf).coordinates = none →
        log_request { millis := 7, rfc3339 := "1970-01-01T00:00:00+00:00" }
          { method := .GET, path := "/x",
            cf := some { coordinates := none, region := none } } =
          log_request { millis := 7, rfc3339 := "1970-01-01T00:00:00+00:00" }
            { method := .GET, path := "/x", cf := none })) :=
  c10_missing_field_defaults
    { millis := 7, rfc3339 := "1970-01-01T00:00:00+00:00" }
    { method := .GET, path := "/x",
      cf := some { coordinates := none, region := none } }
    { coordinates := none, region := none } rfl

end R2Worker
